import Mathlib

/-!
# Verification of the wsl-systemd agent bridge

A shallow embedding, in Lean 4, of the two binaries of the repository:

* `pageant/src/main.rs` — the Windows Pageant shared-memory transport
  (`send_to_pageant`) and the framed client loop in `main`;
* `pipette/src/main.rs` — the duplex relay (`attach_to_tty`) and the
  Assuan rendezvous-file parsing (`Assuan::new`).

Bytes are modelled as `Nat` (values `< 256` in all well-formed inputs);
byte sequences as `List Nat`.  Fallible operations return sum types whose
constructors mirror the Rust control flow (normal return, `Err` return,
panic).  System calls performed by `send_to_pageant` are recorded in an
explicit trace so that claims of the form "fails before touching any
system resource" and "unmap always precedes close" are statable.
-/

namespace WslSystemd

/-- Big-endian 32-bit read, as `byteorder::BigEndian::read_u32`: consumes the
first four bytes of the list.  (The Rust function panics on fewer than four
bytes; every call site in the sources guarantees at least four, and every
theorem below is stated in that regime.) -/
def beRead32 : List Nat → Nat
  | b0 :: b1 :: b2 :: b3 :: _ => ((b0 * 256 + b1) * 256 + b2) * 256 + b3
  | _ => 0

/-- Big-endian 32-bit write, as `byteorder::BigEndian::write_u32`. -/
def beWrite32 (n : Nat) : List Nat :=
  [n / 16777216 % 256, n / 65536 % 256, n / 256 % 256, n % 256]

theorem beWrite32_length (n : Nat) : (beWrite32 n).length = 4 := rfl

theorem beRead32_beWrite32 (n : Nat) (h : n < 4294967296) :
    beRead32 (beWrite32 n) = n := by
  simp only [beWrite32, beRead32]
  omega

/-! ## The Pageant shared-memory transport (`pageant/src/main.rs`, `send_to_pageant`)

The environment abstracts the Windows system state that `send_to_pageant`
interacts with: whether a window titled "Pageant" exists, whether
`CreateFileMappingA` succeeds, and what the agent leaves in the shared
region when `SendMessageA(WM_COPYDATA)` is delivered (`none` models a zero
return, i.e. the agent rejecting the request). -/

/-- The error enum of `pageant/src/main.rs` (`Error`). -/
inductive PError
  | windows
  | noPageantWindow
  | requestTooLong
  | sendMessageFailed
deriving DecidableEq, Repr

/-- Outcome of a call to `send_to_pageant`: a normal `Ok` return carrying the
response bytes, an `Err` return, or a Rust panic (the out-of-range slice
index `&shm[0..rsp_len + 4]` when `rsp_len + 4 > 8192`). -/
inductive PResult
  | ok (rsp : List Nat)
  | err (e : PError)
  | panicked
deriving DecidableEq, Repr

/-- The system resources `send_to_pageant` touches, in program order. -/
inductive SysCall
  | findWindow
  | createFileMapping
  | createFileMappingFailed
  | mapViewOfFile
  | sendMessage
  | unmapView
  | closeHandle
deriving DecidableEq, Repr

/-- Environment for one `send_to_pageant` call. `agentReply` is given the
region contents after the request bytes have been copied in, and returns the
region contents after the agent has handled the `WM_COPYDATA` message
(`none` = `SendMessageA` returned 0). -/
structure PageantEnv where
  windowPresent : Bool
  createMappingOk : Bool
  agentReply : List Nat → Option (List Nat)

/-- `std::ptr::copy(data, shm, data.len())`: overwrite the first
`data.length` bytes of `region`, leaving the rest unchanged. -/
def copyIntoRegion (data region : List Nat) : List Nat :=
  data ++ region.drop data.length

/-- Shallow embedding of `send_to_pageant` (`pageant/src/main.rs:56-146`),
paired with the trace of system resources touched.

Control flow mirrors the source:
1. `data.len() >= 8192` → `Err(RequestTooLong)` before any system call;
2. `FindWindowA` fails → `Err(NoPageantWindow)`;
3. `CreateFileMappingA` fails (the `?`) → `Err(Windows)`; no handle exists
   yet, so no cleanup runs;
4. region (8192 zero bytes) is mapped, the request is copied to its start,
   `SendMessageA` is delivered; a zero return → `Err(SendMessageFailed)`;
5. the first 4 region bytes are decoded big-endian as `rsp_len`, and
   `&shm[0..rsp_len + 4]` is returned; if `rsp_len + 4 > 8192` that slice
   index panics (Rust bounds check) instead of reading out of range.
On every path after step 4 begins, the `Drop` impls run in reverse
declaration order: `ViewOfFile` (unmap) then `DroppableHandle` (close),
including during panic unwinding. -/
def send_to_pageant (env : PageantEnv) (data : List Nat) :
    PResult × List SysCall :=
  if 8192 ≤ data.length then
    (.err .requestTooLong, [])
  else if !env.windowPresent then
    (.err .noPageantWindow, [.findWindow])
  else if !env.createMappingOk then
    (.err .windows, [.findWindow, .createFileMappingFailed])
  else
    let region := copyIntoRegion data (List.replicate 8192 0)
    match env.agentReply region with
    | none =>
        (.err .sendMessageFailed,
         [.findWindow, .createFileMapping, .mapViewOfFile, .sendMessage,
          .unmapView, .closeHandle])
    | some region' =>
        let rspLen := beRead32 (region'.take 4)
        if rspLen + 4 ≤ 8192 then
          (.ok (region'.take (rspLen + 4)),
           [.findWindow, .createFileMapping, .mapViewOfFile, .sendMessage,
            .unmapView, .closeHandle])
        else
          (.panicked,
           [.findWindow, .createFileMapping, .mapViewOfFile, .sendMessage,
            .unmapView, .closeHandle])

/-! ## The duplex relay (`pipette/src/main.rs`, `attach_to_tty`)

`attach_to_tty` spawns two threads.  Thread `bob` repeatedly reads up to 128
bytes from the backend and writes the exact chunk to stdout; thread `fred`
repeatedly reads up to 128 bytes from stdin and writes the exact chunk to the
backend.  Each thread is a sequential read/write loop; we embed each loop as
a function over the script of outcomes its blocking reads (and the paired
writes) produce, in order.  Cross-thread timing (the `process::exit` on a
zero-length read killing the sibling thread) is outside this sequential
model; each loop is run over its whole script. -/

/-- Outcome of one `write_all` call. -/
inductive WriteRes
  | ok
  | ioError
deriving DecidableEq, Repr

/-- Outcome of one blocking `read` call in a relay loop: end of stream
(`Ok(0)`), an `Err` from `read`, or `Ok(len)` with the bytes read, paired
with the outcome of the `write_all` that relays them. -/
inductive ReadEv
  | eof
  | readErr
  | chunk (b : List Nat) (w : WriteRes)
deriving DecidableEq, Repr

/-- How a relay loop left its script. -/
inductive ExitKind
  | exit0    -- `std::process::exit(0)` on a zero-length read
  | panicked -- an `unwrap`/`panic!` fired
  | pending  -- script exhausted with the loop still running
deriving DecidableEq, Repr

/-- Result of running a relay loop over a script: the sequence of completed
`write_all` calls (one list entry per call, in order) and how the loop
exited. -/
structure LoopOut where
  writes : List (List Nat)
  exit : ExitKind
deriving DecidableEq, Repr

/-- Thread `bob` (`pipette/src/main.rs:45-63`), backend → stdout:
`Ok(0)` exits the process; `Ok(len)` writes `buf[..len]` to stdout,
panicking (`unwrap`) if the write fails; `Err(e)` is only logged with
`eprintln!` and the loop continues with the next read. -/
def bobLoop : List ReadEv → LoopOut
  | [] => ⟨[], .pending⟩
  | .eof :: _ => ⟨[], .exit0⟩
  | .readErr :: rest => bobLoop rest
  | .chunk b .ok :: rest =>
      let r := bobLoop rest
      ⟨b :: r.writes, r.exit⟩
  | .chunk _ .ioError :: _ => ⟨[], .panicked⟩

/-- Thread `fred` (`pipette/src/main.rs:64-79`), stdin → backend:
`Ok(0)` exits the process; `Ok(len)` writes `buf[..len]` to the backend,
panicking (`unwrap`) if the write fails; `Err(e)` panics (`panic!`). -/
def fredLoop : List ReadEv → LoopOut
  | [] => ⟨[], .pending⟩
  | .eof :: _ => ⟨[], .exit0⟩
  | .readErr :: _ => ⟨[], .panicked⟩
  | .chunk b .ok :: rest =>
      let r := fredLoop rest
      ⟨b :: r.writes, r.exit⟩
  | .chunk _ .ioError :: _ => ⟨[], .panicked⟩

/-- The script in which a loop is fed the data chunks `cs` (all reads
succeed, all writes succeed) followed by end-of-stream. -/
def chunkScript (cs : List (List Nat)) : List ReadEv :=
  cs.map (fun b => ReadEv.chunk b .ok) ++ [ReadEv.eof]

/-! ## The client frame loop (`pageant/src/main.rs`, `main`)

One iteration of the top-level loop reads a 4-byte big-endian length prefix
with `read_exact`, then reads up to that many payload bytes with
`stdin.take(req_len).read_to_end(..)`.  The client stream is modelled as the
bytes available before the stream ends, plus a flag saying whether the end
is a genuine I/O error (`errAfter = true`) or a clean end of file. -/

/-- Outcome of one iteration of `main`'s frame-reading prologue
(`pageant/src/main.rs:153-175`).  `frame req restBytes restErr` means the
request `req` is handed to `send_to_pageant` and the stream continues with
`restBytes` (ended by an I/O error when `restErr` is true). -/
inductive FrameRead
  | cleanShutdown -- `return` from `main` (UnexpectedEof on the prefix read)
  | fatal         -- a panic (`panic!` or `expect`)
  | frame (req : List Nat) (restBytes : List Nat) (restErr : Bool)
deriving DecidableEq, Repr

/-- Shallow embedding of the frame-reading prologue of `main`
(`pageant/src/main.rs:153-175`).  The client stream is given by the bytes it
will deliver before it ends, and a flag `errAfter` saying whether the read
past the last byte reports a genuine I/O error (`true`) rather than a clean
end of file (`false`).

* `read_exact` on the 4-byte prefix: if the stream ends cleanly before 4
  bytes are available — whether 0 or 1–3 bytes were read — it reports
  `UnexpectedEof` and `main` returns cleanly; a genuine I/O error panics
  (`panic!("stdin is unreadable")`).
* The payload is read with `stdin.take(req_len).read_to_end(&mut req)`,
  which reads **up to** `req_len` bytes and succeeds with fewer when the
  stream ends early; only a genuine I/O error makes the `expect` panic.
  The frame handed on is the 4-byte prefix followed by the payload bytes
  actually read. -/
def read_frame (bytes : List Nat) (errAfter : Bool) : FrameRead :=
  if bytes.length < 4 then
    if errAfter then .fatal else .cleanShutdown
  else if beRead32 (bytes.take 4) ≤ (bytes.drop 4).length then
    .frame (bytes.take 4 ++ (bytes.drop 4).take (beRead32 (bytes.take 4)))
           ((bytes.drop 4).drop (beRead32 (bytes.take 4))) errAfter
  else if errAfter then .fatal
  else .frame (bytes.take 4 ++ bytes.drop 4) [] false

/-- Encoding a payload as a frame: 4-byte big-endian length, then the
payload (the spec's frame codec; `main` receives frames in exactly this
shape and `send_to_pageant`'s caller builds `req` as `len_buf ++ payload`). -/
def encodeFrame (p : List Nat) : List Nat :=
  beWrite32 p.length ++ p

/-! ## The Assuan rendezvous file (`pipette/src/main.rs`, `Assuan::new`)

`Assuan::new` opens the rendezvous file, calls `BufRead::read_line` (which
reads up to and including the first `\n` and fails with an I/O error —
`InvalidData` — if those bytes are not valid UTF-8), then `read`s up to 16
nonce bytes, failing with `NonceParse` when fewer than 16 arrive, then
parses `port.trim()` as `u16`, failing with `PortParse` on a parse error,
and only then connects to `127.0.0.1:port` and writes the nonce.  The file
is modelled by its byte contents. -/

/-- Split a byte list at the first `0x0A`, as `read_line` consumes bytes:
returns (the line including its terminating newline if present, the rest).
A continuation byte is `≥ 0x80`, so a `0x0A` byte can never occur inside a
multi-byte UTF-8 sequence and splitting before decoding is faithful. -/
def splitLine : List Nat → List Nat × List Nat
  | [] => ([], [])
  | b :: bs =>
      if b = 10 then ([10], bs)
      else
        let p := splitLine bs
        (b :: p.1, p.2)

/-- Is `b` a UTF-8 continuation byte? -/
def utf8Cont (b : Nat) : Bool := 128 ≤ b && b ≤ 191

/-- Decode a byte list as UTF-8 into its scalar values; `none` on invalid
UTF-8 (the check `read_line` performs before appending to the `String`). -/
def utf8Decode : List Nat → Option (List Nat)
  | [] => some []
  | b :: bs =>
      if b ≤ 127 then
        (utf8Decode bs).map (b :: ·)
      else if 194 ≤ b && b ≤ 223 then
        match bs with
        | b1 :: bs' =>
            if utf8Cont b1 then
              (utf8Decode bs').map (((b - 192) * 64 + (b1 - 128)) :: ·)
            else none
        | _ => none
      else if 224 ≤ b && b ≤ 239 then
        match bs with
        | b1 :: b2 :: bs' =>
            let lo1 := if b = 224 then 160 else 128
            let hi1 := if b = 237 then 159 else 191
            if (lo1 ≤ b1 && b1 ≤ hi1) && utf8Cont b2 then
              (utf8Decode bs').map
                (((b - 224) * 4096 + (b1 - 128) * 64 + (b2 - 128)) :: ·)
            else none
        | _ => none
      else if 240 ≤ b && b ≤ 244 then
        match bs with
        | b1 :: b2 :: b3 :: bs' =>
            let lo1 := if b = 240 then 144 else 128
            let hi1 := if b = 244 then 143 else 191
            if (lo1 ≤ b1 && b1 ≤ hi1) && utf8Cont b2 && utf8Cont b3 then
              (utf8Decode bs').map
                (((b - 240) * 262144 + (b1 - 128) * 4096 + (b2 - 128) * 64
                  + (b3 - 128)) :: ·)
            else none
        | _ => none
      else none

/-- Rust's `char::is_whitespace` (the Unicode `White_Space` property), used
by `str::trim`. -/
def rustWhitespace (c : Nat) : Bool :=
  (9 ≤ c && c ≤ 13) || c = 32 || c = 133 || c = 160 || c = 5760 ||
  (8192 ≤ c && c ≤ 8202) || c = 8232 || c = 8233 || c = 8239 ||
  c = 8287 || c = 12288

/-- `str::trim` on a list of scalar values. -/
def trimChars (cs : List Nat) : List Nat :=
  ((cs.dropWhile rustWhitespace).reverse.dropWhile rustWhitespace).reverse

/-- `u16::from_str` on a list of scalar values: an optional leading `+`,
then one or more ASCII digits, with the value at most 65535; anything else
(including the empty string) is a `ParseIntError`. -/
def parseU16 (cs : List Nat) : Option Nat :=
  let ds := match cs with
    | 43 :: rest => rest
    | _ => cs
  if ds.isEmpty then none
  else if ds.all (fun c => 48 ≤ c && c ≤ 57) then
    let v := ds.foldl (fun a c => a * 10 + (c - 48)) 0
    if v ≤ 65535 then some v else none
  else none

/-- Outcome of `Assuan::new` on a given file content.  `connect p n` means
the parse succeeded and the function went on to attempt the TCP connection
to `127.0.0.1:p`, writing nonce `n` — the only constructor that involves
any network activity. -/
inductive AssuanResult
  | ioErr      -- `Error::IO` (here: `read_line` rejecting invalid UTF-8)
  | nonceParse -- `Error::NonceParse`
  | portParse  -- `Error::PortParse`
  | connect (port : Nat) (nonce : List Nat)
deriving DecidableEq, Repr

/-- Shallow embedding of the parsing phase of `Assuan::new`
(`pipette/src/main.rs:105-138`), as a function of the rendezvous file's
bytes:

1. `read_line` consumes the first line (through the first `\n`); if those
   bytes are not valid UTF-8 it fails with an I/O error (`Error::IO`);
2. `read(&mut nonce)` yields the following `min(16, remaining)` bytes; if
   fewer than 16, `Error::NonceParse`;
3. `port.trim().parse::<u16>()` failing yields `Error::PortParse`;
4. otherwise the function proceeds to `TcpStream::connect` with the parsed
   port and writes the 16 nonce bytes. -/
def assuan_new (file : List Nat) : AssuanResult :=
  match utf8Decode (splitLine file).1 with
  | none => .ioErr
  | some cs =>
      if ((splitLine file).2.take 16).length ≠ 16 then .nonceParse
      else
        match parseU16 (trimChars cs) with
        | none => .portParse
        | some port => .connect port ((splitLine file).2.take 16)


/-! ## Evaluation lemmas for `send_to_pageant`

One lemma per control path, used by the claim theorems below. -/

theorem send_eq_of_long (env : PageantEnv) (data : List Nat)
    (h : 8192 ≤ data.length) :
    send_to_pageant env data = (.err .requestTooLong, []) := by
  unfold send_to_pageant
  rw [if_pos h]

theorem send_eq_of_noWindow (env : PageantEnv) (data : List Nat)
    (h : data.length < 8192) (hw : env.windowPresent = false) :
    send_to_pageant env data = (.err .noPageantWindow, [.findWindow]) := by
  unfold send_to_pageant
  rw [if_neg (by omega), hw]
  rfl

theorem send_eq_of_noMapping (env : PageantEnv) (data : List Nat)
    (h : data.length < 8192) (hw : env.windowPresent = true)
    (hm : env.createMappingOk = false) :
    send_to_pageant env data
      = (.err .windows, [.findWindow, .createFileMappingFailed]) := by
  unfold send_to_pageant
  rw [if_neg (by omega), hw, hm]
  rfl

theorem send_eq_of_reject (env : PageantEnv) (data : List Nat)
    (h : data.length < 8192) (hw : env.windowPresent = true)
    (hm : env.createMappingOk = true)
    (hr : env.agentReply (copyIntoRegion data (List.replicate 8192 0)) = none) :
    send_to_pageant env data
      = (.err .sendMessageFailed,
         [.findWindow, .createFileMapping, .mapViewOfFile, .sendMessage,
          .unmapView, .closeHandle]) := by
  unfold send_to_pageant
  rw [if_neg (by omega), hw, hm]
  show (match env.agentReply (copyIntoRegion data (List.replicate 8192 0)) with
    | none =>
        ((.err .sendMessageFailed : PResult),
         ([.findWindow, .createFileMapping, .mapViewOfFile, .sendMessage,
          .unmapView, .closeHandle] : List SysCall))
    | some region' =>
        let rspLen := beRead32 (region'.take 4)
        if rspLen + 4 ≤ 8192 then
          (.ok (region'.take (rspLen + 4)),
           [.findWindow, .createFileMapping, .mapViewOfFile, .sendMessage,
            .unmapView, .closeHandle])
        else
          (.panicked,
           [.findWindow, .createFileMapping, .mapViewOfFile, .sendMessage,
            .unmapView, .closeHandle])) = _
  rw [hr]

theorem send_eq_of_reply (env : PageantEnv) (data region' : List Nat)
    (h : data.length < 8192) (hw : env.windowPresent = true)
    (hm : env.createMappingOk = true)
    (hr : env.agentReply (copyIntoRegion data (List.replicate 8192 0))
            = some region') :
    send_to_pageant env data
      = (if beRead32 (region'.take 4) + 4 ≤ 8192 then
           .ok (region'.take (beRead32 (region'.take 4) + 4))
         else .panicked,
         [.findWindow, .createFileMapping, .mapViewOfFile, .sendMessage,
          .unmapView, .closeHandle]) := by
  unfold send_to_pageant
  rw [if_neg (by omega), hw, hm]
  show (match env.agentReply (copyIntoRegion data (List.replicate 8192 0)) with
    | none =>
        ((.err .sendMessageFailed : PResult),
         ([.findWindow, .createFileMapping, .mapViewOfFile, .sendMessage,
          .unmapView, .closeHandle] : List SysCall))
    | some region' =>
        let rspLen := beRead32 (region'.take 4)
        if rspLen + 4 ≤ 8192 then
          (.ok (region'.take (rspLen + 4)),
           [.findWindow, .createFileMapping, .mapViewOfFile, .sendMessage,
            .unmapView, .closeHandle])
        else
          (.panicked,
           [.findWindow, .createFileMapping, .mapViewOfFile, .sendMessage,
            .unmapView, .closeHandle])) = _
  rw [hr]
  show (if beRead32 (region'.take 4) + 4 ≤ 8192 then
          ((.ok (region'.take (beRead32 (region'.take 4) + 4)) : PResult),
           ([.findWindow, .createFileMapping, .mapViewOfFile, .sendMessage,
             .unmapView, .closeHandle] : List SysCall))
        else
          (.panicked,
           [.findWindow, .createFileMapping, .mapViewOfFile, .sendMessage,
            .unmapView, .closeHandle])) = _
  by_cases hb : beRead32 (region'.take 4) + 4 ≤ 8192
  · rw [if_pos hb, if_pos hb]
  · rw [if_neg hb, if_neg hb]

/-! ## Theorems: the shared-memory transport -/

/-- C2: a request whose total encoded size is at least 8192 bytes fails with
`RequestTooLong` with an empty syscall trace (no window lookup, no
shared-memory creation, no message delivery), and every request of total
size strictly below 8192 bytes passes the capacity check (its result is
never `RequestTooLong`). -/
theorem send_to_pageant_capacity (env : PageantEnv) (data : List Nat) :
    (8192 ≤ data.length →
      send_to_pageant env data = (.err .requestTooLong, [])) ∧
    (data.length < 8192 →
      (send_to_pageant env data).1 ≠ .err .requestTooLong) := by
  refine ⟨fun h => send_eq_of_long env data h, fun h => ?_⟩
  cases hw : env.windowPresent with
  | false =>
      rw [send_eq_of_noWindow env data h hw]
      simp
  | true =>
      cases hm : env.createMappingOk with
      | false =>
          rw [send_eq_of_noMapping env data h hw hm]
          simp
      | true =>
          cases hr : env.agentReply (copyIntoRegion data (List.replicate 8192 0)) with
          | none =>
              rw [send_eq_of_reject env data h hw hm hr]
              simp
          | some region' =>
              rw [send_eq_of_reply env data region' h hw hm hr]
              by_cases hb : beRead32 (region'.take 4) + 4 ≤ 8192
              · rw [if_pos hb]
                simp
              · rw [if_neg hb]
                simp

/-- Witness for C2 at concrete inputs: an 8192-byte request is rejected with
an empty trace; a 1-byte request is not rejected for capacity. -/
theorem send_to_pageant_capacity_witness :
    send_to_pageant ⟨true, true, fun _ => none⟩ (List.replicate 8192 0)
      = (.err .requestTooLong, []) ∧
    (send_to_pageant ⟨true, true, fun _ => none⟩ [1]).1
      ≠ .err .requestTooLong :=
  ⟨(send_to_pageant_capacity ⟨true, true, fun _ => none⟩
      (List.replicate 8192 0)).1 (by rw [List.length_replicate]),
   (send_to_pageant_capacity ⟨true, true, fun _ => none⟩ [1]).2 (by decide)⟩

/-- C3: when the agent leaves in the region a response whose leading 4 bytes
decode big-endian to `L` with `L + 4 ≤ 8192`, `send_to_pageant` returns
exactly the 4-byte length prefix followed by the `L` payload bytes — `L + 4`
bytes in total. -/
theorem send_to_pageant_response (env : PageantEnv) (data region' : List Nat)
    (hlen : data.length < 8192) (hw : env.windowPresent = true)
    (hm : env.createMappingOk = true)
    (hr : env.agentReply (copyIntoRegion data (List.replicate 8192 0))
            = some region')
    (hrl : region'.length = 8192)
    (hb : beRead32 (region'.take 4) + 4 ≤ 8192) :
    (send_to_pageant env data).1
      = .ok (region'.take 4
              ++ (region'.drop 4).take (beRead32 (region'.take 4))) ∧
    (region'.take 4
      ++ (region'.drop 4).take (beRead32 (region'.take 4))).length
        = beRead32 (region'.take 4) + 4 := by
  constructor
  · rw [send_eq_of_reply env data region' hlen hw hm hr]
    rw [if_pos hb]
    show PResult.ok (region'.take (beRead32 (region'.take 4) + 4)) = _
    rw [show beRead32 (region'.take 4) + 4 = 4 + beRead32 (region'.take 4)
          from by omega,
        List.take_add]
  · rw [List.length_append, List.length_take, List.length_take,
        List.length_drop, hrl]
    omega

/-- Witness for C3: the spec's scenario — request frame
`[0,0,0,2,0x41,0x42]`, agent reply `[0,0,0,1,0x4F]` — returns exactly the
five bytes `[0,0,0,1,0x4F]`. -/
theorem send_to_pageant_response_witness :
    (send_to_pageant
        ⟨true, true, fun _ => some ([0, 0, 0, 1, 79] ++ List.replicate 8187 0)⟩
        [0, 0, 0, 2, 65, 66]).1
      = .ok [0, 0, 0, 1, 79] := by
  have h := send_to_pageant_response
    ⟨true, true, fun _ => some ([0, 0, 0, 1, 79] ++ List.replicate 8187 0)⟩
    [0, 0, 0, 2, 65, 66] ([0, 0, 0, 1, 79] ++ List.replicate 8187 0)
    (by decide) rfl rfl rfl
    (by rw [List.length_append, List.length_replicate]; rfl) (by decide)
  rw [h.1]
  decide

/-- C6 counterexample: with an agent reply whose length field is 8189 (so
the implied frame is 8193 bytes, one past the mapped region),
`send_to_pageant` does not perform a response read bounded to the mapped
region — the out-of-range slice `&shm[0..rsp_len + 4]` panics and no
response (in particular not the 8192-byte truncation of the region) is
returned. -/
theorem send_to_pageant_overread_counterexample :
    (send_to_pageant
        ⟨true, true, fun _ => some ([0, 0, 31, 253] ++ List.replicate 8188 0)⟩
        [0, 0, 0, 2, 65, 66]).1 = .panicked ∧
    (send_to_pageant
        ⟨true, true, fun _ => some ([0, 0, 31, 253] ++ List.replicate 8188 0)⟩
        [0, 0, 0, 2, 65, 66]).1
      ≠ .ok (([0, 0, 31, 253] ++ List.replicate 8188 0).take 8192) := by
  constructor
  · decide
  · decide

/-- C6 (amended): `send_to_pageant` never reads past the end of the mapped
8192-byte region — when the length field `L` satisfies `L + 4 ≤ 8192` it
returns exactly the first `L + 4` region bytes (at most 8192 bytes, all
from within the region); when `L + 4 > 8192` the slice bounds check panics
before any out-of-region access, instead of performing a bounded
(truncated) read. -/
theorem send_to_pageant_bounded_read (env : PageantEnv)
    (data region' : List Nat)
    (hlen : data.length < 8192) (hw : env.windowPresent = true)
    (hm : env.createMappingOk = true)
    (hr : env.agentReply (copyIntoRegion data (List.replicate 8192 0))
            = some region')
    (hrl : region'.length = 8192) :
    (beRead32 (region'.take 4) + 4 ≤ 8192 →
      (send_to_pageant env data).1
        = .ok (region'.take (beRead32 (region'.take 4) + 4)) ∧
      (region'.take (beRead32 (region'.take 4) + 4)).length ≤ 8192) ∧
    (8192 < beRead32 (region'.take 4) + 4 →
      (send_to_pageant env data).1 = .panicked) := by
  constructor
  · intro hb
    refine ⟨?_, ?_⟩
    · rw [send_eq_of_reply env data region' hlen hw hm hr, if_pos hb]
    · rw [List.length_take, hrl]
      omega
  · intro hb
    rw [send_eq_of_reply env data region' hlen hw hm hr,
        if_neg (by omega)]

/-- Witness for C6 (amended), exercising both branches: a length field of 0
yields exactly the 4 prefix bytes; a length field of 8189 panics. -/
theorem send_to_pageant_bounded_read_witness :
    (send_to_pageant ⟨true, true, fun _ => some (List.replicate 8192 0)⟩
        [1, 2]).1 = .ok (List.replicate 4 0) ∧
    (send_to_pageant
        ⟨true, true, fun _ => some ([0, 0, 31, 254] ++ List.replicate 8188 0)⟩
        [1, 2]).1 = .panicked := by
  constructor
  · have h := (send_to_pageant_bounded_read
      ⟨true, true, fun _ => some (List.replicate 8192 0)⟩ [1, 2]
      (List.replicate 8192 0) (by decide) rfl rfl rfl
      (by rw [List.length_replicate])).1 (by decide)
    rw [h.1]
    decide
  · exact (send_to_pageant_bounded_read
      ⟨true, true, fun _ => some ([0, 0, 31, 254] ++ List.replicate 8188 0)⟩
      [1, 2] ([0, 0, 31, 254] ++ List.replicate 8188 0)
      (by decide) rfl rfl rfl
      (by rw [List.length_append, List.length_replicate]; rfl)).2 (by decide)

/-- C9: on every exit path of `send_to_pageant` on which the shared-memory
mapping was created (the normal return, the `SendMessageFailed` early error
return, and the panic on an oversize length field), the syscall trace ends
with the view being unmapped and then the region handle being closed — both
cleanups always run, and the unmap always happens before the close. -/
theorem send_to_pageant_cleanup (env : PageantEnv) (data : List Nat)
    (h : SysCall.createFileMapping ∈ (send_to_pageant env data).2) :
    ∃ pre, (send_to_pageant env data).2
      = pre ++ [SysCall.unmapView, SysCall.closeHandle] := by
  refine ⟨[.findWindow, .createFileMapping, .mapViewOfFile, .sendMessage], ?_⟩
  by_cases h1 : 8192 ≤ data.length
  · rw [send_eq_of_long env data h1] at h
    exact absurd h (by decide)
  · replace h1 : data.length < 8192 := by omega
    cases hw : env.windowPresent with
    | false =>
        rw [send_eq_of_noWindow env data h1 hw] at h
        exact absurd h (by decide)
    | true =>
        cases hm : env.createMappingOk with
        | false =>
            rw [send_eq_of_noMapping env data h1 hw hm] at h
            exact absurd h (by decide)
        | true =>
            cases hr : env.agentReply
                (copyIntoRegion data (List.replicate 8192 0)) with
            | none =>
                rw [send_eq_of_reject env data h1 hw hm hr]
                rfl
            | some region' =>
                rw [send_eq_of_reply env data region' h1 hw hm hr]
                rfl

/-- Witness for C9: with an agent that rejects the message, the mapping is
created and the trace ends with unmap followed by close. -/
theorem send_to_pageant_cleanup_witness :
    SysCall.createFileMapping
        ∈ (send_to_pageant ⟨true, true, fun _ => none⟩ [1]).2 ∧
    ∃ pre, (send_to_pageant ⟨true, true, fun _ => none⟩ [1]).2
      = pre ++ [SysCall.unmapView, SysCall.closeHandle] :=
  ⟨by decide,
   send_to_pageant_cleanup ⟨true, true, fun _ => none⟩ [1] (by decide)⟩

/-! ## Evaluation lemmas for `read_frame` -/

theorem read_frame_eq_short_eof (bytes : List Nat)
    (h : bytes.length < 4) :
    read_frame bytes false = .cleanShutdown := by
  unfold read_frame
  rw [if_pos h]
  rfl

theorem read_frame_eq_short_err (bytes : List Nat)
    (h : bytes.length < 4) :
    read_frame bytes true = .fatal := by
  unfold read_frame
  rw [if_pos h]
  rfl

theorem read_frame_eq_full (bytes : List Nat) (ea : Bool)
    (h4 : ¬ bytes.length < 4)
    (hL : beRead32 (bytes.take 4) ≤ (bytes.drop 4).length) :
    read_frame bytes ea
      = .frame (bytes.take 4 ++ (bytes.drop 4).take (beRead32 (bytes.take 4)))
               ((bytes.drop 4).drop (beRead32 (bytes.take 4))) ea := by
  unfold read_frame
  rw [if_neg h4, if_pos hL]

theorem read_frame_eq_trunc_err (bytes : List Nat)
    (h4 : ¬ bytes.length < 4)
    (hL : ¬ beRead32 (bytes.take 4) ≤ (bytes.drop 4).length) :
    read_frame bytes true = .fatal := by
  unfold read_frame
  rw [if_neg h4, if_neg hL]
  rfl

theorem read_frame_eq_trunc_eof (bytes : List Nat)
    (h4 : ¬ bytes.length < 4)
    (hL : ¬ beRead32 (bytes.take 4) ≤ (bytes.drop 4).length) :
    read_frame bytes false = .frame (bytes.take 4 ++ bytes.drop 4) [] false := by
  unfold read_frame
  rw [if_neg h4, if_neg hL]
  rfl

/-! ## Theorems: the frame codec and the client frame loop -/

/-- C8: frame round-trip — encoding a payload `P` with `len(P) < 8188` as a
4-byte big-endian length followed by `P`, then decoding as `main` does
(read the 4-byte big-endian length, then that many payload bytes), yields
the whole frame and the payload is exactly `P`. -/
theorem frame_roundtrip (p : List Nat) (h : p.length < 8188) :
    read_frame (encodeFrame p) false = .frame (encodeFrame p) [] false ∧
    (encodeFrame p).drop 4 = p := by
  have htake : (encodeFrame p).take 4 = beWrite32 p.length := rfl
  have hdrop : (encodeFrame p).drop 4 = p := rfl
  refine ⟨?_, hdrop⟩
  have h4 : ¬ (encodeFrame p).length < 4 := by
    unfold encodeFrame
    rw [List.length_append, beWrite32_length]
    omega
  have hread : beRead32 ((encodeFrame p).take 4) = p.length := by
    rw [htake, beRead32_beWrite32 _ (by omega)]
  rw [read_frame_eq_full (encodeFrame p) false h4
        (by rw [hread, hdrop]),
      hread, hdrop, htake, List.take_length, List.drop_length]
  rfl

/-- Witness for C8 at the concrete payload `[0x41, 0x42]`. -/
theorem frame_roundtrip_witness :
    read_frame (encodeFrame [65, 66]) false
      = .frame (encodeFrame [65, 66]) [] false ∧
    (encodeFrame [65, 66]).drop 4 = [65, 66] :=
  frame_roundtrip [65, 66] (by decide)

/-- C4 counterexample: a stream holding the prefix `[0,0,0,5]` (announcing a
5-byte payload) followed by the single byte `0x41` and then a clean end of
stream.  The claim says this short payload read is a fatal error; the code
instead accepts it, handing on the truncated request `[0,0,0,5,0x41]`
without any error. -/
theorem read_frame_short_payload_counterexample :
    read_frame [0, 0, 0, 5, 65] false = .frame [0, 0, 0, 5, 65] [] false ∧
    read_frame [0, 0, 0, 5, 65] false ≠ .fatal := by
  constructor
  · decide
  · decide

/-- C4 (amended): for every client stream, the frame-reading loop behaves as
follows.  If the stream ends cleanly before the 4-byte prefix completes —
whether 0 or 1–3 bytes were delivered — `main` returns (clean shutdown); a
genuine I/O error there is fatal.  After decoding the big-endian length `L`
it reads **up to** `L` payload bytes: when at least `L` bytes are available
the frame is the prefix plus exactly `L` bytes; when the stream ends cleanly
early, the truncated frame is accepted without error (a short payload read
is not fatal); only a genuine I/O error during the payload read is fatal. -/
theorem read_frame_policy (bytes : List Nat) (ea : Bool) :
    (bytes.length < 4 → ea = false → read_frame bytes ea = .cleanShutdown) ∧
    (bytes.length < 4 → ea = true → read_frame bytes ea = .fatal) ∧
    (4 ≤ bytes.length → beRead32 (bytes.take 4) ≤ bytes.length - 4 →
      read_frame bytes ea
        = .frame (bytes.take 4
                    ++ (bytes.drop 4).take (beRead32 (bytes.take 4)))
                 ((bytes.drop 4).drop (beRead32 (bytes.take 4))) ea) ∧
    (4 ≤ bytes.length → bytes.length - 4 < beRead32 (bytes.take 4) →
      ea = false → read_frame bytes ea = .frame bytes [] false) ∧
    (4 ≤ bytes.length → bytes.length - 4 < beRead32 (bytes.take 4) →
      ea = true → read_frame bytes ea = .fatal) := by
  refine ⟨?_, ?_, ?_, ?_, ?_⟩
  · intro h hea
    rw [hea]
    exact read_frame_eq_short_eof bytes h
  · intro h hea
    rw [hea]
    exact read_frame_eq_short_err bytes h
  · intro h4 hL
    exact read_frame_eq_full bytes ea (by omega)
      (by rw [List.length_drop]; omega)
  · intro h4 hL hea
    rw [hea, read_frame_eq_trunc_eof bytes (by omega)
          (by rw [List.length_drop]; omega),
        List.take_append_drop]
  · intro h4 hL hea
    rw [hea]
    exact read_frame_eq_trunc_err bytes (by omega)
      (by rw [List.length_drop]; omega)

/-- Witness for C4 (amended), exercising all five branches at concrete
streams: empty stream with clean end (clean shutdown), 2-byte stream ending
in an I/O error (fatal), complete frame (accepted), truncated payload with
clean end (accepted truncated), truncated payload ending in an I/O error
(fatal). -/
theorem read_frame_policy_witness :
    read_frame [] false = .cleanShutdown ∧
    read_frame [0, 0] true = .fatal ∧
    read_frame [0, 0, 0, 1, 65, 9] false = .frame [0, 0, 0, 1, 65] [9] false ∧
    read_frame [0, 0, 0, 5, 65] false = .frame [0, 0, 0, 5, 65] [] false ∧
    read_frame [0, 0, 0, 5, 66] true = .fatal := by
  refine ⟨?_, ?_, ?_, ?_, ?_⟩
  · exact (read_frame_policy [] false).1 (by decide) rfl
  · exact (read_frame_policy [0, 0] true).2.1 (by decide) rfl
  · have h := (read_frame_policy [0, 0, 0, 1, 65, 9] false).2.2.1
      (by decide) (by decide)
    rw [h]
    decide
  · have h := (read_frame_policy [0, 0, 0, 5, 65] false).2.2.2.1
      (by decide) (by decide) rfl
    rw [h]
  · exact (read_frame_policy [0, 0, 0, 5, 66] true).2.2.2.2
      (by decide) (by decide) rfl

/-! ## Theorems: the duplex relay -/

/-- Running a relay loop over the script `chunkScript cs` (each read
delivers the next chunk of `cs`, every write succeeds, then end-of-stream)
writes exactly the chunks `cs`, one write per chunk in order, and exits via
`process::exit(0)`.  Proved for both directions. -/
theorem loop_chunkScript (cs : List (List Nat)) :
    bobLoop (chunkScript cs) = ⟨cs, .exit0⟩ ∧
    fredLoop (chunkScript cs) = ⟨cs, .exit0⟩ := by
  induction cs with
  | nil => exact ⟨rfl, rfl⟩
  | cons c cs ih =>
      constructor
      · show (⟨c :: (bobLoop (chunkScript cs)).writes,
              (bobLoop (chunkScript cs)).exit⟩ : LoopOut) = _
        rw [ih.1]
      · show (⟨c :: (fredLoop (chunkScript cs)).writes,
              (fredLoop (chunkScript cs)).exit⟩ : LoopOut) = _
        rw [ih.2]

/-- C1: the duplex relay against an echoing backend.  `c1` is the chunking
in which `fred`'s reads deliver the client's input (each chunk non-empty and
at most the 128-byte buffer), so the bytes written to the backend are
exactly the input; the echo backend returns that same byte sequence, and
`c2` is the (arbitrary) re-chunking in which `bob`'s reads deliver it.  Each
direction writes its chunks exactly, one write per chunk in order with no
coalescing, and the bytes arriving on the client's stdout are exactly the
input bytes, in order. -/
theorem relay_echo (input : List Nat) (c1 c2 : List (List Nat))
    (h1 : c1.flatten = input)
    (_hc1 : ∀ b ∈ c1, b ≠ [] ∧ b.length ≤ 128)
    (h2 : c2.flatten = input)
    (_hc2 : ∀ b ∈ c2, b ≠ [] ∧ b.length ≤ 128) :
    fredLoop (chunkScript c1) = ⟨c1, .exit0⟩ ∧
    (fredLoop (chunkScript c1)).writes.flatten = input ∧
    bobLoop (chunkScript c2) = ⟨c2, .exit0⟩ ∧
    (bobLoop (chunkScript c2)).writes.flatten = input := by
  refine ⟨(loop_chunkScript c1).2, ?_, (loop_chunkScript c2).1, ?_⟩
  · rw [(loop_chunkScript c1).2]
    exact h1
  · rw [(loop_chunkScript c2).1]
    exact h2

/-- Witness for C1: input `[1,2,3]` delivered to `fred` as chunks
`[1]`,`[2,3]` and echoed back to `bob` as chunks `[1,2]`,`[3]`. -/
theorem relay_echo_witness :
    fredLoop (chunkScript [[1], [2, 3]]) = ⟨[[1], [2, 3]], .exit0⟩ ∧
    (fredLoop (chunkScript [[1], [2, 3]])).writes.flatten = [1, 2, 3] ∧
    bobLoop (chunkScript [[1, 2], [3]]) = ⟨[[1, 2], [3]], .exit0⟩ ∧
    (bobLoop (chunkScript [[1, 2], [3]])).writes.flatten = [1, 2, 3] :=
  relay_echo [1, 2, 3] [[1], [2, 3]] [[1, 2], [3]]
    (by decide) (by decide) (by decide) (by decide)

/-- C7 counterexample: in the backend → stdout direction, a read error is
*not* fatal — `bob` merely logs it and keeps going.  With a script in which
the first read fails and the second delivers `[0x41]`, the loop continues
past the error, writes the later chunk, and exits cleanly at end-of-stream,
contradicting "the error is fatal at the point of first detection … and
execution does not continue past it". -/
theorem relay_error_counterexample :
    bobLoop [.readErr, .chunk [65] .ok, .eof] = ⟨[[65]], .exit0⟩ ∧
    (bobLoop [.readErr, .chunk [65] .ok, .eof]).writes ≠ [] ∧
    (bobLoop [.readErr, .chunk [65] .ok, .eof]).exit ≠ .panicked := by
  refine ⟨rfl, ?_, ?_⟩
  · decide
  · decide

/-- C7 (amended): error propagation in the relay.  In the stdin → backend
direction (`fred`) a read error panics at once, with nothing written and no
later event processed, and a failed write also panics at once; in the
backend → stdout direction (`bob`) a failed write panics at once, but a
*read* error is only logged and the loop continues with the next read
(`bobLoop (.readErr :: rest) = bobLoop rest`), so backend read errors are
retried rather than fatal. -/
theorem relay_error_policy :
    (∀ rest : List ReadEv, fredLoop (.readErr :: rest) = ⟨[], .panicked⟩) ∧
    (∀ (b : List Nat) (rest : List ReadEv),
      fredLoop (.chunk b .ioError :: rest) = ⟨[], .panicked⟩) ∧
    (∀ (b : List Nat) (rest : List ReadEv),
      bobLoop (.chunk b .ioError :: rest) = ⟨[], .panicked⟩) ∧
    (∀ rest : List ReadEv, bobLoop (.readErr :: rest) = bobLoop rest) :=
  ⟨fun _ => rfl, fun _ _ => rfl, fun _ _ => rfl, fun _ => rfl⟩

/-! ## Evaluation lemmas for `assuan_new` -/

theorem assuan_eq_of_badUtf8 (file : List Nat)
    (h : utf8Decode (splitLine file).1 = none) :
    assuan_new file = .ioErr := by
  unfold assuan_new
  rw [h]

theorem assuan_eq_of_shortNonce (file : List Nat) (cs : List Nat)
    (h : utf8Decode (splitLine file).1 = some cs)
    (hn : ((splitLine file).2.take 16).length ≠ 16) :
    assuan_new file = .nonceParse := by
  unfold assuan_new
  rw [h]
  show (if ((splitLine file).2.take 16).length ≠ 16 then AssuanResult.nonceParse
        else match parseU16 (trimChars cs) with
          | none => AssuanResult.portParse
          | some port => AssuanResult.connect port ((splitLine file).2.take 16))
      = _
  rw [if_pos hn]

theorem assuan_eq_of_badPort (file : List Nat) (cs : List Nat)
    (h : utf8Decode (splitLine file).1 = some cs)
    (hn : ¬ ((splitLine file).2.take 16).length ≠ 16)
    (hp : parseU16 (trimChars cs) = none) :
    assuan_new file = .portParse := by
  unfold assuan_new
  rw [h]
  show (if ((splitLine file).2.take 16).length ≠ 16 then AssuanResult.nonceParse
        else match parseU16 (trimChars cs) with
          | none => AssuanResult.portParse
          | some port => AssuanResult.connect port ((splitLine file).2.take 16))
      = _
  rw [if_neg hn, hp]

theorem assuan_eq_of_valid (file : List Nat) (cs : List Nat) (port : Nat)
    (h : utf8Decode (splitLine file).1 = some cs)
    (hn : ¬ ((splitLine file).2.take 16).length ≠ 16)
    (hp : parseU16 (trimChars cs) = some port) :
    assuan_new file = .connect port ((splitLine file).2.take 16) := by
  unfold assuan_new
  rw [h]
  show (if ((splitLine file).2.take 16).length ≠ 16 then AssuanResult.nonceParse
        else match parseU16 (trimChars cs) with
          | none => AssuanResult.portParse
          | some port => AssuanResult.connect port ((splitLine file).2.take 16))
      = _
  rw [if_neg hn, hp]

/-! ## Theorems: the Assuan rendezvous file -/

/-- C5 counterexample: the file whose first line is the invalid UTF-8 byte
`0xFF` followed by 16 nonce bytes.  The claim says any file without a valid
(port, 16-byte nonce) pair fails with the corresponding *parse* error (here
`PortParse`, since 16 nonce bytes are available but the line is not a valid
decimal integer); the code instead fails inside `read_line` with the I/O
error `Error::IO` (invalid UTF-8), which is neither parse error. -/
theorem assuan_parse_counterexample :
    assuan_new ([255, 10] ++ List.replicate 16 0) = .ioErr ∧
    assuan_new ([255, 10] ++ List.replicate 16 0) ≠ .portParse ∧
    assuan_new ([255, 10] ++ List.replicate 16 0) ≠ .nonceParse := by
  refine ⟨?_, ?_, ?_⟩
  · decide
  · decide
  · decide

/-- C5 (amended): for every rendezvous file whose first line `read_line`
accepts (valid UTF-8), construction fails with `NonceParse` when fewer than
16 bytes follow the line, and with `PortParse` when at least 16 bytes follow
but the trimmed line does not parse as an unsigned 16-bit decimal integer;
a first line that is not valid UTF-8 fails earlier with the I/O error
instead of a parse error.  In all of these failure cases no network
connection attempt is made (the result is never `connect`). -/
theorem assuan_new_parse_errors (file : List Nat) :
    (utf8Decode (splitLine file).1 = none → assuan_new file = .ioErr) ∧
    (∀ cs, utf8Decode (splitLine file).1 = some cs →
      (splitLine file).2.length < 16 → assuan_new file = .nonceParse) ∧
    (∀ cs, utf8Decode (splitLine file).1 = some cs →
      16 ≤ (splitLine file).2.length → parseU16 (trimChars cs) = none →
      assuan_new file = .portParse) ∧
    ((utf8Decode (splitLine file).1 = none ∨
      (splitLine file).2.length < 16 ∨
      (∃ cs, utf8Decode (splitLine file).1 = some cs ∧
        parseU16 (trimChars cs) = none)) →
      ∀ (p : Nat) (n : List Nat), assuan_new file ≠ .connect p n) := by
  refine ⟨?_, ?_, ?_, ?_⟩
  · exact assuan_eq_of_badUtf8 file
  · intro cs h hlen
    exact assuan_eq_of_shortNonce file cs h (by rw [List.length_take]; omega)
  · intro cs h hlen hp
    exact assuan_eq_of_badPort file cs h (by rw [List.length_take]; omega) hp
  · intro hfail p n
    rcases hfail with h | h | ⟨cs, hcs, hp⟩
    · rw [assuan_eq_of_badUtf8 file h]
      simp
    · cases hu : utf8Decode (splitLine file).1 with
      | none =>
          rw [assuan_eq_of_badUtf8 file hu]
          simp
      | some cs =>
          rw [assuan_eq_of_shortNonce file cs hu
                (by rw [List.length_take]; omega)]
          simp
    · by_cases hn : ((splitLine file).2.take 16).length ≠ 16
      · rw [assuan_eq_of_shortNonce file cs hcs hn]
        simp
      · rw [assuan_eq_of_badPort file cs hcs hn hp]
        simp

/-- Witness for C5 (amended) at concrete files: a 2-byte invalid-UTF-8 line
gives the I/O error; the ASCII file `"80\n"` followed by only 5 bytes gives
`NonceParse`; the ASCII file `"x\n"` followed by 16 bytes gives `PortParse`;
and the `NonceParse` file is never connected. -/
theorem assuan_new_parse_errors_witness :
    assuan_new ([200, 10] ++ List.replicate 16 0) = .ioErr ∧
    assuan_new [56, 48, 10, 1, 2, 3, 4, 5] = .nonceParse ∧
    assuan_new ([120, 10] ++ List.replicate 16 0) = .portParse ∧
    assuan_new [56, 48, 10, 1, 2, 3, 4, 5] ≠ .connect 80 [1, 2, 3, 4, 5] :=
  ⟨(assuan_new_parse_errors ([200, 10] ++ List.replicate 16 0)).1 (by decide),
   (assuan_new_parse_errors [56, 48, 10, 1, 2, 3, 4, 5]).2.1
      [56, 48, 10] (by decide) (by decide),
   (assuan_new_parse_errors ([120, 10] ++ List.replicate 16 0)).2.2.1
      [120, 10] (by decide) (by decide) (by decide),
   (assuan_new_parse_errors [56, 48, 10, 1, 2, 3, 4, 5]).2.2.2
      (Or.inr (Or.inl (by decide))) 80 [1, 2, 3, 4, 5]⟩

/-- C10 counterexample: the 2-byte file `[0xFF, 0x0A]` provides zero bytes
after its first line (fewer than 16), and its first line is not a valid
decimal integer; the claim says the result is `NonceParse`, but because the
line is not valid UTF-8, `read_line` fails first and the result is the I/O
error `Error::IO`. -/
theorem assuan_order_counterexample :
    (splitLine [255, 10]).2 = [] ∧
    assuan_new [255, 10] = .ioErr ∧
    assuan_new [255, 10] ≠ .nonceParse := by
  refine ⟨?_, ?_, ?_⟩
  · decide
  · decide
  · decide

/-- C10 (amended): for every rendezvous file whose first line `read_line`
accepts (valid UTF-8), the nonce check takes precedence over port parsing —
fewer than 16 bytes after the first line gives `NonceParse` regardless of
whether the line parses as a port — and `PortParse` can only ever be
returned for a file with at least 16 bytes after its port line. -/
theorem assuan_nonce_precedence (file : List Nat) :
    (∀ cs, utf8Decode (splitLine file).1 = some cs →
      (splitLine file).2.length < 16 → assuan_new file = .nonceParse) ∧
    (assuan_new file = .portParse → 16 ≤ (splitLine file).2.length) := by
  constructor
  · intro cs h hlen
    exact assuan_eq_of_shortNonce file cs h (by rw [List.length_take]; omega)
  · intro hres
    by_contra hlen
    cases hu : utf8Decode (splitLine file).1 with
    | none =>
        rw [assuan_eq_of_badUtf8 file hu] at hres
        exact AssuanResult.noConfusion hres
    | some cs =>
        rw [assuan_eq_of_shortNonce file cs hu
              (by rw [List.length_take]; omega)] at hres
        exact AssuanResult.noConfusion hres

/-- Witness for C10 (amended): the file `"y\n"` plus 5 bytes — a port line
that does not parse *and* a short nonce — yields `NonceParse`, not
`PortParse`; and a file on which the result is `PortParse` (`"y\n"` plus 16
bytes) indeed has at least 16 bytes after its first line. -/
theorem assuan_nonce_precedence_witness :
    assuan_new [121, 10, 1, 2, 3, 4, 5] = .nonceParse ∧
    16 ≤ (splitLine ([121, 10] ++ List.replicate 16 0)).2.length :=
  ⟨(assuan_nonce_precedence [121, 10, 1, 2, 3, 4, 5]).1
      [121, 10] (by decide) (by decide),
   (assuan_nonce_precedence ([121, 10] ++ List.replicate 16 0)).2 (by decide)⟩

end WslSystemd
